import Mathlib

/-!
Shallow embedding of the dispatch-and-cache core of the `backendMoob` NestJS service
(`MessagesService`, `MessageSenderFactory`, the four sender strategies, and
`RedisService`), together with proofs about its fan-out policy, persistence,
error handling and cache behaviour.

Modelling conventions:
* A TypeScript `async` function whose promise may reject is embedded as
  `Except ThrownError α`; a function whose body is wrapped in a catch-all
  `try/catch` that returns a value becomes a `match` on that `Except`.
* `Promise.all` over already-started promises is a join: it resolves to the
  list of results or rejects when one input rejects (`promiseAll`).
* External collaborators (axios, Cloudinary, Mongoose `save`/`find`, ioredis)
  are oracles passed in as environment records: their outcome on this call is
  a datum, and the service code under verification is translated literally.
-/

namespace BackendMoob

/-- A thrown JS exception, distinguished the way the code's `catch` blocks
distinguish them: NestJS `BadRequestException` / `InternalServerErrorException`,
an axios error (recognised via `axios.isAxiosError`, carrying
`error.response?.status` and `error.response?.data?.description`), or any
other `Error`. -/
inductive ThrownError where
  | badRequest (msg : String)
  | internalServerError (msg : String)
  | axiosError (status : Option Nat) (description : Option String) (msg : String)
  | jsError (msg : String)
  deriving DecidableEq, Repr

/-- `error.message` of a thrown JS exception. -/
def ThrownError.message : ThrownError → String
  | .badRequest m => m
  | .internalServerError m => m
  | .axiosError _ _ m => m
  | .jsError m => m

/-- `SendResult` from `sender-strategy.interface.ts`. -/
structure SendResult where
  success : Bool
  delivered : Option Bool := none
  statusCode : Option Nat := none
  message : Option String := none
  deriving DecidableEq, Repr

/-- `MessageData` from `sender-strategy.interface.ts`. -/
structure MessageData where
  recipient : String
  content : String
  file : Option String := none
  deriving DecidableEq, Repr

/-- `MassMessageData` from `sender-strategy.interface.ts`. -/
structure MassMessageData where
  recipients : List String
  content : String
  file : Option String := none
  deriving DecidableEq, Repr

/-- `Promise.all` over already-started promises: the list of results, or a
rejection when any input rejects. -/
def promiseAll {α : Type} : List (Except ThrownError α) → Except ThrownError (List α)
  | [] => .ok []
  | x :: xs =>
    match x with
    | .error e => .error e
    | .ok a =>
      match promiseAll xs with
      | .error e => .error e
      | .ok as => .ok (a :: as)

/-- `SenderStrategy` interface: `sendMessage` is required, `sendMassMessage`
optional (`sendMassMessage?:`). -/
structure SenderStrategy where
  sendMessage : MessageData → Except ThrownError SendResult
  sendMassMessage : Option (MassMessageData → Except ThrownError SendResult)

/-- `WhatsappSender.sendMessage`: the simulated send always succeeds; the
surrounding `try/catch` would map a thrown error to `success=false`, but the
body (logging plus `simulateDelay`) cannot throw. -/
def whatsappSendOne (_data : MessageData) : Except ThrownError SendResult :=
  .ok { success := true, delivered := some true, statusCode := some 200 }

/-- `WhatsappSender.sendMassMessage`: parallel per-recipient `sendMessage`,
combined with `every` over `success` and `delivered`. -/
def whatsappSendMass (data : MassMessageData) : Except ThrownError SendResult :=
  match promiseAll (data.recipients.map fun recipient =>
      whatsappSendOne { recipient, content := data.content, file := data.file }) with
  | .ok results =>
    let allSuccess := results.all (·.success)
    let allDelivered := results.all (fun r => r.delivered == some true)
    let okCount := (results.filter (·.success)).length
    .ok { success := allSuccess, delivered := some allDelivered,
          message := some (toString okCount ++ "/" ++ toString results.length ++ " enviados") }
  | .error e => .ok { success := false, delivered := some false, message := some e.message }

/-- `SlackSender.sendMessage`: structurally identical to the WhatsApp variant. -/
def slackSendOne (_data : MessageData) : Except ThrownError SendResult :=
  .ok { success := true, delivered := some true, statusCode := some 200 }

/-- `SlackSender.sendMassMessage`. -/
def slackSendMass (data : MassMessageData) : Except ThrownError SendResult :=
  match promiseAll (data.recipients.map fun recipient =>
      slackSendOne { recipient, content := data.content, file := data.file }) with
  | .ok results =>
    let allSuccess := results.all (·.success)
    let allDelivered := results.all (fun r => r.delivered == some true)
    let okCount := (results.filter (·.success)).length
    .ok { success := allSuccess, delivered := some allDelivered,
          message := some (toString okCount ++ "/" ++ toString results.length ++ " enviados") }
  | .error e => .ok { success := false, delivered := some false, message := some e.message }

/-- `DiscordSender.sendMessage`: like the others but without a `delivered` field. -/
def discordSendOne (_data : MessageData) : Except ThrownError SendResult :=
  .ok { success := true, statusCode := some 200 }

/-- `DiscordSender.sendMassMessage`. -/
def discordSendMass (data : MassMessageData) : Except ThrownError SendResult :=
  match promiseAll (data.recipients.map fun recipient =>
      discordSendOne { recipient, content := data.content, file := data.file }) with
  | .ok results =>
    let allSuccess := results.all (·.success)
    let okCount := (results.filter (·.success)).length
    .ok { success := allSuccess,
          message := some (toString okCount ++ "/" ++ toString results.length ++ " enviados") }
  | .error e => .ok { success := false, message := some e.message }

/-- The body of a Telegram API response as the code inspects it
(`response.data.ok`). -/
structure TelegramResponseData where
  ok : Bool
  deriving DecidableEq, Repr

/-- An axios response (`response.status`, `response.data`). -/
structure TelegramResponse where
  status : Nat
  data : TelegramResponseData
  deriving DecidableEq, Repr

/-- External-world behaviour of the axios calls made by `TelegramSender`,
keyed by the `chat_id` being posted to: the outcome of
`POST {baseUrl}/sendMessage` and `POST {baseUrl}/sendDocument`. -/
structure TelegramEnv where
  sendMessagePost : String → Except ThrownError TelegramResponse
  sendDocumentPost : String → Except ThrownError TelegramResponse

/-- `TelegramSender.sendFile` (private helper): whether the document was sent;
every failure path returns `false`. -/
def telegramSendFile (env : TelegramEnv) (chatId : String) (file : String) : Bool :=
  if !(file.startsWith "http://" || file.startsWith "https://") then false
  else
    match env.sendDocumentPost chatId with
    | .ok response => response.data.ok
    | .error _ => false

/-- The `try` body of `TelegramSender.sendMessage` (before its `catch`):
missing token short-circuits, an attached file goes through `sendFile` first
(falling through to the text send when the file fails), then the text message
is posted. -/
def telegramSendOneBody (token : Option String) (env : TelegramEnv)
    (data : MessageData) : Except ThrownError SendResult :=
  if token.isNone then
    .ok { success := false, message := some "Token no configurado" }
  else
    let fileShortCircuit : Bool :=
      match data.file with
      | some f => telegramSendFile env data.recipient f
      | none => false
    if fileShortCircuit then
      .ok { success := true, statusCode := some 200 }
    else
      match env.sendMessagePost data.recipient with
      | .error e => .error e
      | .ok response =>
        if response.data.ok && response.status == 200 then
          .ok { success := true, statusCode := some response.status }
        else
          .ok { success := false, statusCode := some response.status,
                message := some "Error en respuesta de API" }

/-- `TelegramSender.sendMessage`: the body above wrapped in the catch-all that
converts axios errors and any other error into a `success=false` result. -/
def telegramSendOne (token : Option String) (env : TelegramEnv)
    (data : MessageData) : Except ThrownError SendResult :=
  match telegramSendOneBody token env data with
  | .ok r => .ok r
  | .error (.axiosError status description msg) =>
    .ok { success := false, statusCode := status, message := some (description.getD msg) }
  | .error e => .ok { success := false, message := some e.message }

/-- `TelegramSender.sendMassMessage`: parallel per-recipient sends, success
when `failedCount === 0`. -/
def telegramSendMass (token : Option String) (env : TelegramEnv)
    (data : MassMessageData) : Except ThrownError SendResult :=
  match promiseAll (data.recipients.map fun recipient =>
      telegramSendOne token env { recipient, content := data.content, file := data.file }) with
  | .ok results =>
    let successCount := (results.filter (·.success)).length
    let failedCount := results.length - successCount
    if failedCount == 0 then
      .ok { success := true,
            message := some (toString successCount ++ "/" ++ toString results.length
              ++ " mensajes enviados") }
    else
      .ok { success := false,
            message := some (toString successCount ++ " exitosos, "
              ++ toString failedCount ++ " fallidos") }
  | .error e => .ok { success := false, message := some e.message }

/-- The `TelegramSender` provider, with its constructor-injected token. -/
def telegramStrategy (token : Option String) (env : TelegramEnv) : SenderStrategy where
  sendMessage := telegramSendOne token env
  sendMassMessage := some (telegramSendMass token env)

/-- The `SlackSender` provider. -/
def slackStrategy : SenderStrategy where
  sendMessage := slackSendOne
  sendMassMessage := some slackSendMass

/-- The `DiscordSender` provider. -/
def discordStrategy : SenderStrategy where
  sendMessage := discordSendOne
  sendMassMessage := some discordSendMass

/-- The `WhatsappSender` provider. -/
def whatsappStrategy : SenderStrategy where
  sendMessage := whatsappSendOne
  sendMassMessage := some whatsappSendMass

/-- `MessageSenderFactory.getSender`: the switch over the platform tag, with
the `BadRequestException` default branch. At runtime the tag is a string, so
the model takes a `String`. -/
def getSender (token : Option String) (env : TelegramEnv) (platform : String) :
    Except ThrownError SenderStrategy :=
  if platform == "telegram" then .ok (telegramStrategy token env)
  else if platform == "slack" then .ok slackStrategy
  else if platform == "discord" then .ok discordStrategy
  else if platform == "whatsapp" then .ok whatsappStrategy
  else
    .error (.badRequest ("Plataforma no soportada: " ++ platform
      ++ ". Opciones válidas: telegram, slack, discord, whatsapp"))

/-- One Redis entry: key, stored string value, and the TTL it was set with. -/
structure CacheEntry where
  key : String
  value : String
  ttl : Nat
  deriving DecidableEq, Repr

/-- The Redis keyspace, as an association list (first match wins on `get`). -/
abbrev Cache := List CacheEntry

/-- Whether this call's underlying ioredis commands throw. -/
structure RedisEnv where
  getFails : Bool := false
  setFails : Bool := false
  keysFails : Bool := false
  delFails : Bool := false
  deriving DecidableEq, Repr

/-- Raw keyspace lookup (ioredis `get` when it does not throw). -/
def cacheGet (c : Cache) (k : String) : Option String :=
  (c.find? (fun e => e.key == k)).map (·.value)

/-- Raw keyspace write (ioredis `setex`): replaces any previous entry for `k`. -/
def cacheSet (c : Cache) (k v : String) (ttl : Nat) : Cache :=
  ⟨k, v, ttl⟩ :: c.filter (fun e => e.key != k)

/-- Glob prefix matching on keys: the only patterns this codebase passes to
redis `KEYS` have the shape `pre ++ "*"` with no other metacharacters, for
which redis glob matching is exactly the prefix test on characters. -/
def keyMatchesPrefixGlob (pre k : String) : Bool :=
  pre.data.isPrefixOf k.data

/-- `RedisService.get`: a thrown ioredis error is caught and surfaces as null. -/
def redisGet (renv : RedisEnv) (c : Cache) (k : String) : Option String :=
  if renv.getFails then none else cacheGet c k

/-- `RedisService.set`: returns whether the write happened; a thrown ioredis
error is caught and yields `false` with the keyspace unchanged. -/
def redisSet (renv : RedisEnv) (c : Cache) (k v : String) (ttl : Nat) : Cache × Bool :=
  if renv.setFails then (c, false) else (cacheSet c k v ttl, true)

/-- `RedisService.deleteByPattern` for a pattern `pre ++ "*"`: `KEYS` then
`DEL`; any thrown ioredis error is caught and yields count 0 with the keyspace
unchanged, as does an empty `KEYS` result. -/
def redisDeleteByPrefixPattern (renv : RedisEnv) (c : Cache) (pre : String) :
    Cache × Nat :=
  if renv.keysFails then (c, 0)
  else
    let ks := c.filter (fun e => keyMatchesPrefixGlob pre e.key)
    if ks.length = 0 then (c, 0)
    else if renv.delFails then (c, 0)
    else (c.filter (fun e => !keyMatchesPrefixGlob pre e.key), ks.length)

/-- The persisted message document as `MessagesService.sendMessage` constructs
it (schema fields that the service writes). -/
structure MessageRecord where
  senderId : String
  recipients : List String
  platform : String
  content : String
  fileUrl : Option String
  sent : Bool
  deriving DecidableEq, Repr

/-- `CreateMessageDto` after validation/transformation. -/
structure CreateMessageDto where
  platform : String
  recipients : List String
  content : String
  deriving DecidableEq, Repr

/-- `MessagesService.CACHE_TTL = 24 * 60 * 60` (24 hours in seconds). -/
def CACHE_TTL : Nat := 24 * 60 * 60

/-- The cache key template literal from `MessagesService.getUserMessages`:
`messages:${userId}:${limit}:${offset}`. -/
def cacheKey (userId : String) (limit offset : Nat) : String :=
  "messages:" ++ userId ++ ":" ++ toString limit ++ ":" ++ toString offset

/-- `MessagesService.invalidateUserCache`: pattern-delete of
`messages:${userId}:*`; errors are caught and swallowed (and the redis layer
already swallows its own). Returns the resulting keyspace. -/
def invalidateUserCache (renv : RedisEnv) (c : Cache) (userId : String) : Cache :=
  (redisDeleteByPrefixPattern renv c ("messages:" ++ userId ++ ":")).1

/-- A strategy invocation made by the orchestrator, for stating the fan-out
policy. -/
inductive StratCall where
  | one (data : MessageData)
  | mass (data : MassMessageData)
  deriving DecidableEq, Repr

/-- The fan-out step of `MessagesService.sendMessage` (lines 61-87), paired
with the trace of strategy invocations it makes. The `Promise.all` fallback is
a join over per-recipient sends: completion order does not affect the combined
result, and the recipient order of the issued calls follows the input list. -/
def fanOut (strat : SenderStrategy) (recipients : List String) (content : String)
    (fileUrl : Option String) : Except ThrownError SendResult × List StratCall :=
  match recipients with
  | [r] =>
    (strat.sendMessage { recipient := r, content, file := fileUrl },
     [.one { recipient := r, content, file := fileUrl }])
  | _ =>
    match strat.sendMassMessage with
    | some sendMass =>
      (sendMass { recipients, content, file := fileUrl },
       [.mass { recipients, content, file := fileUrl }])
    | none =>
      let calls := recipients.map fun r =>
        StratCall.one { recipient := r, content, file := fileUrl }
      match promiseAll (recipients.map fun r =>
          strat.sendMessage { recipient := r, content, file := fileUrl }) with
      | .ok results => (.ok { success := results.all (·.success) }, calls)
      | .error e => (.error e, calls)

/-- Outcomes of this dispatch's external collaborators: the Cloudinary upload
(consulted only when a file is attached) and the Mongoose `save`. -/
structure DispatchEnv where
  uploadOutcome : Except ThrownError String
  saveOutcome : Except ThrownError Unit

/-- Step 1 of the orchestrator: upload the optional file, obtaining the
optional `fileUrl`. -/
def resolveFileUrl (denv : DispatchEnv) (hasFile : Bool) :
    Except ThrownError (Option String) :=
  if hasFile then denv.uploadOutcome.map some else .ok none

/-- What a dispatch did: the value or error returned to the caller, the
records persisted, the resulting Redis keyspace, and the strategy calls. -/
structure DispatchOutcome where
  result : Except ThrownError MessageRecord
  saved : List MessageRecord
  cache : Cache
  calls : List StratCall

/-- The opaque error of the orchestrator's catch-all:
`InternalServerErrorException('Error al procesar el envío del mensaje')`. -/
def opaqueDispatchError : ThrownError :=
  .internalServerError "Error al procesar el envío del mensaje"

/-- `MessagesService.sendMessage` (the dispatch orchestrator): upload, resolve
strategy, fan out, persist one record with `sent: sendResult.success || false`,
then invalidate the user's cache. The whole body runs in a `try/catch` that
converts any thrown error into `opaqueDispatchError`. -/
def serviceSendMessage (token : Option String) (tenv : TelegramEnv)
    (denv : DispatchEnv) (renv : RedisEnv) (cache : Cache)
    (dto : CreateMessageDto) (userId : String) (hasFile : Bool) : DispatchOutcome :=
  match resolveFileUrl denv hasFile with
  | .error _ => { result := .error opaqueDispatchError, saved := [], cache, calls := [] }
  | .ok fileUrl =>
    match getSender token tenv dto.platform with
    | .error _ => { result := .error opaqueDispatchError, saved := [], cache, calls := [] }
    | .ok strat =>
      let fo := fanOut strat dto.recipients dto.content fileUrl
      match fo.1 with
      | .error _ =>
        { result := .error opaqueDispatchError, saved := [], cache, calls := fo.2 }
      | .ok sendResult =>
        let newMessage : MessageRecord :=
          { senderId := userId, recipients := dto.recipients, platform := dto.platform,
            content := dto.content, fileUrl, sent := sendResult.success || false }
        match denv.saveOutcome with
        | .error _ =>
          { result := .error opaqueDispatchError, saved := [], cache, calls := fo.2 }
        | .ok _ =>
          { result := .ok newMessage, saved := [newMessage],
            cache := invalidateUserCache renv cache userId, calls := fo.2 }

/-- The JSON codec (`JSON.stringify` / `JSON.parse`) used on cached pages.
These are JS library functions, not repository code, so the control-flow
theorems quantify over an arbitrary codec; `parse` can reject a corrupt
entry. -/
structure Codec where
  stringify : List MessageRecord → String
  parse : String → Except ThrownError (List MessageRecord)

/-- Outcomes of this read's external collaborators: the redis behaviour and
the Mongoose `find(...).sort(...).skip(...).limit(...).exec()` result. -/
structure ReadEnv where
  renv : RedisEnv
  storeFind : Except ThrownError (List MessageRecord)

/-- What a read did: the `{messages, fromCache}` pair or error returned to the
caller, and the resulting Redis keyspace. -/
structure ReadOutcome where
  result : Except ThrownError (List MessageRecord × Bool)
  cache : Cache

/-- The opaque error of the read path's catch-all:
`InternalServerErrorException('Error al obtener los mensajes')`. -/
def opaqueReadError : ThrownError :=
  .internalServerError "Error al obtener los mensajes"

/-- The cache-miss tail of `getUserMessages`: query the store; cache the page
with `CACHE_TTL` only when non-empty (the `set` failure flag is ignored);
return `fromCache: false`. A store failure hits the outer catch. -/
def getUserMessagesMiss (codec : Codec) (env : ReadEnv) (cache : Cache)
    (key : String) : ReadOutcome :=
  match env.storeFind with
  | .error _ => { result := .error opaqueReadError, cache }
  | .ok messages =>
    if messages.length > 0 then
      { result := .ok (messages, false),
        cache := (redisSet env.renv cache key (codec.stringify messages) CACHE_TTL).1 }
    else
      { result := .ok (messages, false), cache }

/-- `MessagesService.getUserMessages`: cache-aside read. The TS truthiness
test `if (cachedData)` treats both null and the empty string as a miss. A
`JSON.parse` failure on a hit is NOT handled locally: it propagates to the
outer `try/catch`, which converts it into `opaqueReadError`. -/
def getUserMessages (codec : Codec) (env : ReadEnv) (cache : Cache)
    (userId : String) (limit offset : Nat) : ReadOutcome :=
  let key := cacheKey userId limit offset
  match redisGet env.renv cache key with
  | some cachedData =>
    if cachedData ≠ "" then
      match codec.parse cachedData with
      | .ok messages => { result := .ok (messages, true), cache }
      | .error _ => { result := .error opaqueReadError, cache }
    else getUserMessagesMiss codec env cache key
  | none => getUserMessagesMiss codec env cache key

/-! ### Helper lemmas about the keyspace model -/

theorem list_isPrefixOf_append (a b : List Char) : a.isPrefixOf (a ++ b) = true := by
  induction a with
  | nil => simp
  | cons c cs ih => simp [List.isPrefixOf, ih]

theorem keyMatchesPrefixGlob_append (pre rest : String) :
    keyMatchesPrefixGlob pre (pre ++ rest) = true := by
  simp [keyMatchesPrefixGlob, String.data_append, list_isPrefixOf_append]

theorem cacheGet_cons (e : CacheEntry) (l : Cache) (k : String) :
    cacheGet (e :: l) k = if e.key == k then some e.value else cacheGet l k := by
  by_cases h : (e.key == k) = true
  · simp [cacheGet, List.find?, h]
  · simp only [Bool.not_eq_true] at h
    simp [cacheGet, List.find?, h]

theorem cacheGet_deleteByPrefix (c : Cache) (pre k : String)
    (h : keyMatchesPrefixGlob pre k = true) :
    cacheGet (c.filter (fun e => !keyMatchesPrefixGlob pre e.key)) k = none := by
  induction c with
  | nil => rfl
  | cons e c ih =>
    rw [List.filter_cons]
    by_cases hm : keyMatchesPrefixGlob pre e.key = true
    · simpa [hm] using ih
    · have hk : ¬ (e.key == k) = true := by
        intro hkk
        exact hm (by rwa [eq_of_beq hkk])
      simp only [hm, Bool.not_false, if_pos]
      rw [cacheGet_cons]
      simp [hk, ih]

theorem cacheGet_of_no_match (c : Cache) (pre k : String)
    (h : keyMatchesPrefixGlob pre k = true)
    (hnone : c.filter (fun e => keyMatchesPrefixGlob pre e.key) = []) :
    cacheGet c k = none := by
  induction c with
  | nil => rfl
  | cons e c ih =>
    rw [List.filter_cons] at hnone
    by_cases hm : keyMatchesPrefixGlob pre e.key = true
    · simp [hm] at hnone
    · have hk : ¬ (e.key == k) = true := by
        intro hkk
        exact hm (by rwa [eq_of_beq hkk])
      simp only [hm, if_neg, Bool.false_eq_true, not_false_eq_true, if_false] at hnone
      rw [cacheGet_cons]
      simp [hk]
      exact ih hnone

theorem invalidateUserCache_removes (renv : RedisEnv) (c : Cache) (u k : String)
    (h1 : renv.keysFails = false) (h2 : renv.delFails = false)
    (h : keyMatchesPrefixGlob ("messages:" ++ u ++ ":") k = true) :
    cacheGet (invalidateUserCache renv c u) k = none := by
  unfold invalidateUserCache redisDeleteByPrefixPattern
  rw [h1, h2]
  by_cases hlen : (c.filter (fun e => keyMatchesPrefixGlob ("messages:" ++ u ++ ":") e.key)).length = 0
  · have hnil : c.filter (fun e => keyMatchesPrefixGlob ("messages:" ++ u ++ ":") e.key) = [] :=
      List.length_eq_zero.mp hlen
    simp only [Bool.false_eq_true, if_false, hlen, if_pos]
    exact cacheGet_of_no_match c _ k h hnil
  · simp only [Bool.false_eq_true, if_false, hlen, if_neg, if_false]
    exact cacheGet_deleteByPrefix c _ k h

theorem pre_matches_cacheKey (u : String) (l o : Nat) :
    keyMatchesPrefixGlob ("messages:" ++ u ++ ":") (cacheKey u l o) = true := by
  have hdata : (cacheKey u l o).data =
      ("messages:" ++ u ++ ":").data ++ (toString l ++ ":" ++ toString o).data := by
    simp [cacheKey, String.data_append, List.append_assoc]
  simp [keyMatchesPrefixGlob, hdata, list_isPrefixOf_append]

/-! ### Decimal representation: `Nat.repr` is injective and contains no colon -/

def digitVal (c : Char) : Nat := c.toNat - 48

def digitsVal (ds : List Char) : Nat := ds.foldl (fun a c => 10 * a + digitVal c) 0

theorem digitsVal_append_singleton (ds : List Char) (c : Char) :
    digitsVal (ds ++ [c]) = 10 * digitsVal ds + digitVal c := by
  simp [digitsVal, List.foldl_append]

theorem digitVal_digitChar (d : Nat) (h : d < 10) : digitVal (Nat.digitChar d) = d := by
  interval_cases d <;> rfl

theorem digitChar_ne_colon (d : Nat) (h : d < 10) : Nat.digitChar d ≠ ':' := by
  interval_cases d <;> decide

theorem toDigitsCore_append10 (f : Nat) : ∀ (n : Nat) (ds : List Char),
    Nat.toDigitsCore 10 f n ds = Nat.toDigitsCore 10 f n [] ++ ds := by
  induction f with
  | zero => intro n ds; simp [Nat.toDigitsCore]
  | succ f ih =>
    intro n ds
    simp only [Nat.toDigitsCore]
    by_cases h : n / 10 = 0
    · simp [h]
    · rw [if_neg h, if_neg h]
      rw [ih (n / 10) (Nat.digitChar (n % 10) :: ds),
        ih (n / 10) [Nat.digitChar (n % 10)]]
      simp

theorem colon_notin_digit_cons (n : Nat) (ds : List Char) (h : ':' ∉ ds) :
    ':' ∉ Nat.digitChar (n % 10) :: ds := by
  intro hmem
  rcases List.mem_cons.mp hmem with hc | hc
  · exact digitChar_ne_colon (n % 10) (Nat.mod_lt n (by norm_num)) hc.symm
  · exact h hc

theorem colon_not_mem_toDigitsCore (f : Nat) : ∀ (n : Nat) (ds : List Char),
    ':' ∉ ds → ':' ∉ Nat.toDigitsCore 10 f n ds := by
  induction f with
  | zero => intro n ds h; simpa [Nat.toDigitsCore] using h
  | succ f ih =>
    intro n ds h
    simp only [Nat.toDigitsCore]
    by_cases h0 : n / 10 = 0
    · rw [if_pos h0]
      exact colon_notin_digit_cons n ds h
    · rw [if_neg h0]
      exact ih (n / 10) _ (colon_notin_digit_cons n ds h)

theorem colon_not_mem_repr (n : Nat) : ':' ∉ (Nat.repr n).data := by
  show ':' ∉ Nat.toDigitsCore 10 (n + 1) n []
  exact colon_not_mem_toDigitsCore (n + 1) n [] (by simp)

theorem digitsVal_toDigitsCore (f : Nat) : ∀ n : Nat, n < 10 ^ f →
    digitsVal (Nat.toDigitsCore 10 f n []) = n := by
  induction f with
  | zero =>
    intro n h
    interval_cases n
    rfl
  | succ f ih =>
    intro n h
    simp only [Nat.toDigitsCore]
    by_cases h0 : n / 10 = 0
    · rw [if_pos h0]
      have hn : n < 10 := by omega
      have hmod : n % 10 = n := Nat.mod_eq_of_lt hn
      simp only [digitsVal, List.foldl_cons, List.foldl_nil, Nat.mul_zero, Nat.zero_add, hmod]
      exact digitVal_digitChar n hn
    · rw [if_neg h0]
      rw [toDigitsCore_append10 f (n / 10) [Nat.digitChar (n % 10)]]
      rw [digitsVal_append_singleton]
      have hlt : n / 10 < 10 ^ f := by
        rw [Nat.div_lt_iff_lt_mul (by norm_num : (0:Nat) < 10)]
        calc n < 10 ^ (f + 1) := h
        _ = 10 ^ f * 10 := by rw [pow_succ]
      rw [ih (n / 10) hlt, digitVal_digitChar (n % 10) (Nat.mod_lt n (by norm_num))]
      omega

theorem digitsVal_repr (n : Nat) : digitsVal (Nat.repr n).data = n := by
  have h : n < 10 ^ (n + 1) := by
    calc n < 10 ^ n := Nat.lt_pow_self (by norm_num) n
    _ ≤ 10 ^ (n + 1) := Nat.pow_le_pow_right (by norm_num) (Nat.le_succ n)
  show digitsVal (Nat.toDigitsCore 10 (n + 1) n []) = n
  exact digitsVal_toDigitsCore (n + 1) n h

theorem repr_injective {m n : Nat} (h : Nat.repr m = Nat.repr n) : m = n := by
  have hv := congrArg (fun s => digitsVal s.data) h
  simpa [digitsVal_repr] using hv

theorem append_colon_eq {xs1 : List Char} : ∀ {xs2 : List Char} {ys1 ys2 : List Char},
    ':' ∉ xs1 → ':' ∉ xs2 → xs1 ++ ':' :: ys1 = xs2 ++ ':' :: ys2 →
    xs1 = xs2 ∧ ys1 = ys2 := by
  induction xs1 with
  | nil =>
    intro xs2 ys1 ys2 _ h2 h
    cases xs2 with
    | nil => simpa using h
    | cons c t =>
      rw [List.nil_append, List.cons_append] at h
      injection h with hc _
      subst hc
      exact absurd (List.mem_cons_self _ t) h2
  | cons c t ih =>
    intro xs2 ys1 ys2 h1 h2 h
    cases xs2 with
    | nil =>
      rw [List.nil_append, List.cons_append] at h
      injection h with hc _
      subst hc
      exact absurd (List.mem_cons_self _ t) h1
    | cons c2 t2 =>
      rw [List.cons_append, List.cons_append] at h
      injection h with hc ht
      subst hc
      obtain ⟨ha, hb⟩ := ih (fun hm => h1 (List.mem_cons_of_mem c hm))
        (fun hm => h2 (List.mem_cons_of_mem c hm)) ht
      exact ⟨by rw [ha], hb⟩

theorem colon_split_right {xs1 xs2 ys1 ys2 : List Char}
    (h1 : ':' ∉ ys1) (h2 : ':' ∉ ys2)
    (h : xs1 ++ ':' :: ys1 = xs2 ++ ':' :: ys2) : xs1 = xs2 ∧ ys1 = ys2 := by
  have hr := congrArg List.reverse h
  simp only [List.reverse_append, List.reverse_cons, List.append_assoc,
    List.singleton_append] at hr
  have h1r : ':' ∉ ys1.reverse := by simpa using h1
  have h2r : ':' ∉ ys2.reverse := by simpa using h2
  obtain ⟨ha, hb⟩ := append_colon_eq h1r h2r hr
  exact ⟨List.reverse_injective hb, List.reverse_injective ha⟩

theorem toString_nat_eq_repr (n : Nat) : toString n = Nat.repr n := rfl

theorem cacheKey_data (u : String) (l o : Nat) :
    (cacheKey u l o).data =
      (("messages:" ++ u).data ++ ':' :: (Nat.repr l).data)
        ++ ':' :: (Nat.repr o).data := by
  simp only [cacheKey, toString_nat_eq_repr, String.data_append, List.append_assoc]
  rfl

theorem cacheKey_inj {u1 u2 : String} {l1 l2 o1 o2 : Nat}
    (h : cacheKey u1 l1 o1 = cacheKey u2 l2 o2) : u1 = u2 ∧ l1 = l2 ∧ o1 = o2 := by
  have hd := congrArg String.data h
  rw [cacheKey_data, cacheKey_data] at hd
  obtain ⟨hA, hO⟩ := colon_split_right (colon_not_mem_repr o1) (colon_not_mem_repr o2) hd
  obtain ⟨hM, hL⟩ := colon_split_right (colon_not_mem_repr l1) (colon_not_mem_repr l2) hA
  refine ⟨?_, repr_injective (String.ext hL), repr_injective (String.ext hO)⟩
  rw [String.data_append, String.data_append] at hM
  exact String.ext (List.append_cancel_left hM)

/-! ### Instances and fixtures -/

instance {ε α : Type} [DecidableEq ε] [DecidableEq α] : DecidableEq (Except ε α) := fun x y =>
  match x, y with
  | .error a, .error b =>
    if h : a = b then .isTrue (by rw [h]) else .isFalse (fun c => h (Except.error.inj c))
  | .error _, .ok _ => .isFalse (fun c => Except.noConfusion c)
  | .ok _, .error _ => .isFalse (fun c => Except.noConfusion c)
  | .ok a, .ok b =>
    if h : a = b then .isTrue (by rw [h]) else .isFalse (fun c => h (Except.ok.inj c))

/-- A Telegram environment whose axios calls all succeed with `ok: true`. -/
def okTelegramEnv : TelegramEnv where
  sendMessagePost := fun _ => .ok { status := 200, data := { ok := true } }
  sendDocumentPost := fun _ => .ok { status := 200, data := { ok := true } }

/-- A Telegram environment whose axios calls all reject. -/
def failTelegramEnv : TelegramEnv where
  sendMessagePost := fun _ => .error (.jsError "network down")
  sendDocumentPost := fun _ => .error (.jsError "network down")

/-- Collaborators that succeed: upload yields a URL, `save` commits. -/
def okDispatchEnv : DispatchEnv where
  uploadOutcome := .ok "https://res.cloudinary.com/demo/file.png"
  saveOutcome := .ok ()

/-- Collaborators where the Cloudinary upload rejects. -/
def failUploadEnv : DispatchEnv where
  uploadOutcome := .error (.jsError "upload failed")
  saveOutcome := .ok ()

/-- A Redis whose underlying client never throws. -/
def quietRedis : RedisEnv := {}

/-- A minimal stand-in for the external JSON codec (`JSON.parse` /
`JSON.stringify` are JS library functions, not repository code): it accepts
only the literal `"[]"` and rejects everything else, which is all the
concrete witnesses need. The control-flow theorems quantify over arbitrary
codecs. -/
def emptyOnlyCodec : Codec where
  stringify := fun _ => "[]"
  parse := fun s => if s = "[]" then .ok [] else .error (.jsError "Unexpected token")

/-- A sample persisted record for witnesses. -/
def sampleRecord : MessageRecord :=
  { senderId := "u3", recipients := ["A"], platform := "slack", content := "hi",
    fileUrl := none, sent := true }

/-! ### Helper lemmas about the orchestrator and the read path -/

theorem fanOut_trace_mass (strat : SenderStrategy) (recipients : List String)
    (content : String) (fileUrl : Option String)
    (sendMass : MassMessageData → Except ThrownError SendResult)
    (hmass : strat.sendMassMessage = some sendMass) (hlen : recipients.length ≠ 1) :
    fanOut strat recipients content fileUrl =
      (sendMass { recipients, content, file := fileUrl },
       [.mass { recipients, content, file := fileUrl }]) := by
  rcases recipients with _ | ⟨r, _ | ⟨r2, rs⟩⟩
  · simp [fanOut, hmass]
  · simp at hlen
  · simp [fanOut, hmass]

theorem fanOut_trace_fallback (strat : SenderStrategy) (recipients : List String)
    (content : String) (fileUrl : Option String)
    (hmass : strat.sendMassMessage = none) (hlen : recipients.length ≠ 1) :
    (fanOut strat recipients content fileUrl).2 =
      recipients.map (fun r => .one { recipient := r, content, file := fileUrl })
    ∧ ∀ results,
        promiseAll (recipients.map fun r =>
          strat.sendMessage { recipient := r, content, file := fileUrl }) = .ok results →
        (fanOut strat recipients content fileUrl).1 =
          .ok { success := results.all (·.success) } := by
  rcases recipients with _ | ⟨r, _ | ⟨r2, rs⟩⟩
  · constructor
    · simp [fanOut, hmass, promiseAll]
    · intro results hres
      simp [promiseAll] at hres
      subst hres
      simp [fanOut, hmass, promiseAll]
  · simp at hlen
  · constructor
    · simp only [fanOut, hmass]
      split <;> rfl
    · intro results hres
      simp only [fanOut, hmass, hres]

theorem serviceSendMessage_shape (token : Option String) (tenv : TelegramEnv)
    (denv : DispatchEnv) (renv : RedisEnv) (cache : Cache) (dto : CreateMessageDto)
    (userId : String) (hasFile : Bool) :
    ((∃ rec, (serviceSendMessage token tenv denv renv cache dto userId hasFile).result =
        .ok rec) →
      (serviceSendMessage token tenv denv renv cache dto userId hasFile).cache =
        invalidateUserCache renv cache userId)
    ∧ (∀ e, (serviceSendMessage token tenv denv renv cache dto userId hasFile).result =
        .error e →
      (serviceSendMessage token tenv denv renv cache dto userId hasFile).cache = cache
      ∧ (serviceSendMessage token tenv denv renv cache dto userId hasFile).saved = []
      ∧ e = opaqueDispatchError) := by
  unfold serviceSendMessage
  cases hfu : resolveFileUrl denv hasFile with
  | error e => simp
  | ok fileUrl =>
    cases hs : getSender token tenv dto.platform with
    | error e => simp
    | ok strat =>
      cases hsend : (fanOut strat dto.recipients dto.content fileUrl).1 with
      | error e => simp [hsend]
      | ok sr =>
        cases hsave : denv.saveOutcome with
        | error e => simp [hsend, hsave]
        | ok _ => simp [hsend, hsave]

theorem redisGet_none_of_cacheGet_none (renv : RedisEnv) (cache : Cache) (k : String)
    (h : cacheGet cache k = none) : redisGet renv cache k = none := by
  unfold redisGet
  split
  · rfl
  · exact h

theorem getUserMessages_of_redisGet_none (codec : Codec) (env : ReadEnv) (cache : Cache)
    (u : String) (l o : Nat) (ms : List MessageRecord)
    (hget : redisGet env.renv cache (cacheKey u l o) = none)
    (hfind : env.storeFind = .ok ms) :
    (getUserMessages codec env cache u l o).result = .ok (ms, false) := by
  unfold getUserMessages
  simp only [hget]
  simp only [getUserMessagesMiss, hfind]
  by_cases h : ms.length > 0 <;> simp [h]

/-! ### Claims -/

/-- C1: for every accepted dispatch the fan-out policy is applied in this
fixed order: a single-recipient dispatch invokes the strategy's `sendMessage`
exactly once and never `sendMassMessage`; otherwise, when the resolved
strategy defines `sendMassMessage`, it is invoked exactly once with the full
recipient list and the orchestrator never calls `sendMessage` directly;
otherwise `sendMessage` is issued once per recipient (a concurrent join over
the input order) and the combined success equals the AND of the individual
results' success flags. The orchestrator's strategy-call trace is exactly the
fan-out trace. -/
theorem C1_fanout_policy (strat : SenderStrategy) (recipients : List String)
    (content : String) (fileUrl : Option String) :
    (∀ r, recipients = [r] →
      fanOut strat recipients content fileUrl =
        (strat.sendMessage { recipient := r, content, file := fileUrl },
         [.one { recipient := r, content, file := fileUrl }]))
    ∧ (recipients.length ≠ 1 →
       ∀ sendMass, strat.sendMassMessage = some sendMass →
      fanOut strat recipients content fileUrl =
        (sendMass { recipients, content, file := fileUrl },
         [.mass { recipients, content, file := fileUrl }]))
    ∧ (recipients.length ≠ 1 → strat.sendMassMessage = none →
      (fanOut strat recipients content fileUrl).2 =
        recipients.map (fun r => .one { recipient := r, content, file := fileUrl })
      ∧ ∀ results,
          promiseAll (recipients.map fun r =>
            strat.sendMessage { recipient := r, content, file := fileUrl }) = .ok results →
          (fanOut strat recipients content fileUrl).1 =
            .ok { success := results.all (·.success) })
    ∧ (∀ token tenv denv renv cache dto userId hasFile fu,
        resolveFileUrl denv hasFile = .ok fu →
        getSender token tenv dto.platform = .ok strat →
        (serviceSendMessage token tenv denv renv cache dto userId hasFile).calls =
          (fanOut strat dto.recipients dto.content fu).2) := by
  refine ⟨?_, ?_, ?_, ?_⟩
  · intro r h
    subst h
    rfl
  · intro hlen sendMass hmass
    exact fanOut_trace_mass strat recipients content fileUrl sendMass hmass hlen
  · intro hlen hmass
    exact fanOut_trace_fallback strat recipients content fileUrl hmass hlen
  · intro token tenv denv renv cache dto userId hasFile fu hfu hs
    unfold serviceSendMessage
    simp only [hfu, hs]
    cases hsend : (fanOut strat dto.recipients dto.content fu).1 with
    | error e => simp [hsend]
    | ok sr =>
      cases hsave : denv.saveOutcome with
      | error e => simp [hsend, hsave]
      | ok _ => simp [hsend, hsave]

theorem C1_fanout_policy_witness :
    fanOut slackStrategy ["A"] "hi" none =
      (slackSendOne { recipient := "A", content := "hi", file := none },
       [.one { recipient := "A", content := "hi", file := none }])
    ∧ fanOut slackStrategy ["A", "B"] "hi" none =
      (slackSendMass { recipients := ["A", "B"], content := "hi", file := none },
       [.mass { recipients := ["A", "B"], content := "hi", file := none }]) := by
  constructor
  · exact (C1_fanout_policy slackStrategy ["A"] "hi" none).1 "A" rfl
  · exact (C1_fanout_policy slackStrategy ["A", "B"] "hi" none).2.1 (by decide) slackSendMass rfl

/-- C8: the cache key derivation `messages:<userId>:<limit>:<offset>` is a
pure deterministic function of its three inputs and injective: distinct
(userId, limit, offset) triples never produce the same key; in particular,
with equal user and offset, different limits give different keys. -/
theorem C8_cacheKey_injective :
    (∀ u l o, cacheKey u l o = cacheKey u l o)
    ∧ (∀ u1 l1 o1 u2 l2 o2, cacheKey u1 l1 o1 = cacheKey u2 l2 o2 →
        u1 = u2 ∧ l1 = l2 ∧ o1 = o2)
    ∧ (∀ u l1 l2 o, l1 ≠ l2 → cacheKey u l1 o ≠ cacheKey u l2 o) := by
  refine ⟨fun _ _ _ => rfl, fun _ _ _ _ _ _ h => cacheKey_inj h, ?_⟩
  intro u l1 l2 o hne h
  exact hne (cacheKey_inj h).2.1

theorem C8_cacheKey_injective_witness :
    ("u" = "u" ∧ (3 : Nat) = 3 ∧ (0 : Nat) = 0)
    ∧ cacheKey "u" 1 0 ≠ cacheKey "u" 2 0 :=
  ⟨C8_cacheKey_injective.2.1 "u" 3 0 "u" 3 0 rfl,
   C8_cacheKey_injective.2.2 "u" 1 2 0 (by decide)⟩

/-- C9: no sender strategy's `sendMessage` ever rejects: every outcome,
including ordinary delivery failures and the missing-Telegram-token
configuration error, is a returned `SendResult` (the failure paths with
`success=false` and an explanatory message), so the throwing path is
unreachable at the orchestrator boundary. -/
theorem C9_sendMessage_total :
    (∀ token tenv data, (∃ r, telegramSendOne token tenv data = Except.ok r)
      ∧ (token = none → telegramSendOne token tenv data =
          .ok { success := false, message := some "Token no configurado" }))
    ∧ (∀ data, slackSendOne data =
        .ok { success := true, delivered := some true, statusCode := some 200 })
    ∧ (∀ data, discordSendOne data = .ok { success := true, statusCode := some 200 })
    ∧ (∀ data, whatsappSendOne data =
        .ok { success := true, delivered := some true, statusCode := some 200 }) := by
  refine ⟨?_, fun _ => rfl, fun _ => rfl, fun _ => rfl⟩
  intro token tenv data
  constructor
  · unfold telegramSendOne
    cases telegramSendOneBody token tenv data with
    | ok r => exact ⟨r, rfl⟩
    | error e => cases e <;> exact ⟨_, rfl⟩
  · intro h
    subst h
    rfl

theorem C9_sendMessage_total_witness :
    telegramSendOne none okTelegramEnv { recipient := "123", content := "hi", file := none } =
      .ok { success := false, message := some "Token no configurado" }
    ∧ ∃ r, telegramSendOne (some "t") failTelegramEnv
        { recipient := "123", content := "hi", file := none } = Except.ok r :=
  ⟨(C9_sendMessage_total.1 none okTelegramEnv
      { recipient := "123", content := "hi", file := none }).2 rfl,
   (C9_sendMessage_total.1 (some "t") failTelegramEnv
      { recipient := "123", content := "hi", file := none }).1⟩

/-- C10: every registered strategy (telegram, slack, discord, whatsapp)
defines `sendMassMessage`, so for every supported platform tag the
orchestrator's per-recipient fallback branch is unreachable: every
multi-recipient fan-out goes through the strategy's own `sendMassMessage`. -/
theorem C10_mass_defined_for_all_platforms (token : Option String)
    (tenv : TelegramEnv) (p : String)
    (hp : p = "telegram" ∨ p = "slack" ∨ p = "discord" ∨ p = "whatsapp") :
    ∃ strat, getSender token tenv p = .ok strat
      ∧ strat.sendMassMessage.isSome = true
      ∧ ∀ recipients content fileUrl, recipients.length ≠ 1 →
          (fanOut strat recipients content fileUrl).2 =
            [.mass { recipients, content, file := fileUrl }] := by
  rcases hp with h | h | h | h <;> subst h
  · exact ⟨telegramStrategy token tenv, rfl, rfl, fun recipients content fileUrl hlen =>
      congrArg Prod.snd (fanOut_trace_mass _ recipients content fileUrl _ rfl hlen)⟩
  · exact ⟨slackStrategy, rfl, rfl, fun recipients content fileUrl hlen =>
      congrArg Prod.snd (fanOut_trace_mass _ recipients content fileUrl _ rfl hlen)⟩
  · exact ⟨discordStrategy, rfl, rfl, fun recipients content fileUrl hlen =>
      congrArg Prod.snd (fanOut_trace_mass _ recipients content fileUrl _ rfl hlen)⟩
  · exact ⟨whatsappStrategy, rfl, rfl, fun recipients content fileUrl hlen =>
      congrArg Prod.snd (fanOut_trace_mass _ recipients content fileUrl _ rfl hlen)⟩

theorem C10_mass_defined_for_all_platforms_witness :
    ∃ strat, getSender none okTelegramEnv "discord" = .ok strat
      ∧ strat.sendMassMessage.isSome = true
      ∧ (fanOut strat ["A", "B"] "hi" none).2 =
          [.mass { recipients := ["A", "B"], content := "hi", file := none }] := by
  obtain ⟨strat, h1, h2, h3⟩ := C10_mass_defined_for_all_platforms none okTelegramEnv
    "discord" (Or.inr (Or.inr (Or.inl rfl)))
  exact ⟨strat, h1, h2, h3 ["A", "B"] "hi" none (by decide)⟩

/-- C2: after a dispatch for user U whose persistence succeeds (and whose own
redis commands do not fail), the pattern invalidation removes every key of
the form `messages:U:<limit>:<offset>` that the read path can create, so the
next `getUserMessages` for U on any (limit, offset) reads from the store and
returns `fromCache=false`; and the invalidation runs only after the record is
saved: whenever the dispatch fails, the keyspace is untouched. -/
theorem C2_invalidation_after_save (token : Option String) (tenv : TelegramEnv)
    (denv : DispatchEnv) (renv : RedisEnv) (cache : Cache) (dto : CreateMessageDto)
    (userId : String) (hasFile : Bool) :
    ((∃ rec, (serviceSendMessage token tenv denv renv cache dto userId hasFile).result =
        .ok rec) →
      renv.keysFails = false → renv.delFails = false →
      (∀ l o, cacheGet
          (serviceSendMessage token tenv denv renv cache dto userId hasFile).cache
          (cacheKey userId l o) = none)
      ∧ ∀ codec env l o ms, env.storeFind = .ok ms →
          (getUserMessages codec env
            (serviceSendMessage token tenv denv renv cache dto userId hasFile).cache
            userId l o).result = .ok (ms, false))
    ∧ (∀ e, (serviceSendMessage token tenv denv renv cache dto userId hasFile).result =
        .error e →
        (serviceSendMessage token tenv denv renv cache dto userId hasFile).cache = cache) := by
  obtain ⟨hok, herr⟩ := serviceSendMessage_shape token tenv denv renv cache dto userId hasFile
  constructor
  · intro hrec h1 h2
    have hc := hok hrec
    constructor
    · intro l o
      rw [hc]
      exact invalidateUserCache_removes renv cache userId _ h1 h2
        (pre_matches_cacheKey userId l o)
    · intro codec env l o ms hms
      apply getUserMessages_of_redisGet_none
      · apply redisGet_none_of_cacheGet_none
        rw [hc]
        exact invalidateUserCache_removes renv cache userId _ h1 h2
          (pre_matches_cacheKey userId l o)
      · exact hms
  · intro e he
    exact (herr e he).1

theorem C2_invalidation_after_save_witness :
    cacheGet (serviceSendMessage none okTelegramEnv okDispatchEnv quietRedis
        [⟨"messages:u1:10:0", "stale", 86400⟩]
        { platform := "whatsapp", recipients := ["A"], content := "hi" } "u1" false).cache
      (cacheKey "u1" 10 0) = none
    ∧ (getUserMessages emptyOnlyCodec
        { renv := quietRedis, storeFind := .ok [sampleRecord] }
        (serviceSendMessage none okTelegramEnv okDispatchEnv quietRedis
          [⟨"messages:u1:10:0", "stale", 86400⟩]
          { platform := "whatsapp", recipients := ["A"], content := "hi" } "u1" false).cache
        "u1" 10 0).result = .ok ([sampleRecord], false) := by
  obtain ⟨ha, hb⟩ := (C2_invalidation_after_save none okTelegramEnv okDispatchEnv quietRedis
      [⟨"messages:u1:10:0", "stale", 86400⟩]
      { platform := "whatsapp", recipients := ["A"], content := "hi" } "u1" false).1
      ⟨{ senderId := "u1", recipients := ["A"], platform := "whatsapp", content := "hi",
         fileUrl := none, sent := true }, rfl⟩ rfl rfl
  exact ⟨ha 10 0,
    hb emptyOnlyCodec { renv := quietRedis, storeFind := .ok [sampleRecord] } 10 0
      [sampleRecord] rfl⟩

/-- C3 (amended): for every platform tag outside {telegram, slack, discord,
whatsapp}, the selector fails with a BadRequest error carrying the offending
tag and the list of valid tags, and no record is persisted; but the
orchestrator's catch-all converts that error, so the caller of the dispatch
observes the opaque processing-failed error, not the selector's own error. -/
theorem C3_unsupported_platform (token : Option String) (tenv : TelegramEnv)
    (denv : DispatchEnv) (renv : RedisEnv) (cache : Cache) (dto : CreateMessageDto)
    (userId : String) (hasFile : Bool)
    (h1 : dto.platform ≠ "telegram") (h2 : dto.platform ≠ "slack")
    (h3 : dto.platform ≠ "discord") (h4 : dto.platform ≠ "whatsapp") :
    getSender token tenv dto.platform =
      .error (.badRequest ("Plataforma no soportada: " ++ dto.platform
        ++ ". Opciones válidas: telegram, slack, discord, whatsapp"))
    ∧ (serviceSendMessage token tenv denv renv cache dto userId hasFile).saved = []
    ∧ (serviceSendMessage token tenv denv renv cache dto userId hasFile).result =
        .error opaqueDispatchError
    ∧ (serviceSendMessage token tenv denv renv cache dto userId hasFile).cache = cache := by
  have hg : getSender token tenv dto.platform =
      .error (.badRequest ("Plataforma no soportada: " ++ dto.platform
        ++ ". Opciones válidas: telegram, slack, discord, whatsapp")) := by
    simp only [getSender, beq_iff_eq]
    rw [if_neg h1, if_neg h2, if_neg h3, if_neg h4]
  refine ⟨hg, ?_⟩
  unfold serviceSendMessage
  cases hfu : resolveFileUrl denv hasFile with
  | error e => simp
  | ok fileUrl => simp [hg]

theorem C3_counterexample :
    (serviceSendMessage none okTelegramEnv okDispatchEnv quietRedis []
        { platform := "sms", recipients := ["123"], content := "hi" } "u1" false).result
      = .error (.internalServerError "Error al procesar el envío del mensaje")
    ∧ (serviceSendMessage none okTelegramEnv okDispatchEnv quietRedis []
        { platform := "sms", recipients := ["123"], content := "hi" } "u1" false).result
      ≠ .error (.badRequest
          "Plataforma no soportada: sms. Opciones válidas: telegram, slack, discord, whatsapp")
    ∧ (serviceSendMessage none okTelegramEnv okDispatchEnv quietRedis []
        { platform := "sms", recipients := ["123"], content := "hi" } "u1" false).saved
      = [] := by
  refine ⟨rfl, ?_, rfl⟩
  decide

theorem C3_unsupported_platform_witness :
    getSender none okTelegramEnv "sms" =
      .error (.badRequest
        "Plataforma no soportada: sms. Opciones válidas: telegram, slack, discord, whatsapp")
    ∧ (serviceSendMessage none okTelegramEnv okDispatchEnv quietRedis []
        { platform := "sms", recipients := ["123"], content := "hola" } "u9" false).saved = []
    ∧ (serviceSendMessage none okTelegramEnv okDispatchEnv quietRedis []
        { platform := "sms", recipients := ["123"], content := "hola" } "u9" false).result =
        .error opaqueDispatchError
    ∧ (serviceSendMessage none okTelegramEnv okDispatchEnv quietRedis []
        { platform := "sms", recipients := ["123"], content := "hola" } "u9" false).cache = [] :=
  C3_unsupported_platform none okTelegramEnv okDispatchEnv quietRedis []
    { platform := "sms", recipients := ["123"], content := "hola" } "u9" false
    (by decide) (by decide) (by decide) (by decide)

/-- C4: when the delivery step completes with a `SendResult` (success true or
false) and the save commits, exactly one record is persisted, its `sent`
field equals the combined success boolean, and a delivery failure is never
surfaced as a thrown error: the dispatch returns the persisted record. -/
theorem C4_persist_result (token : Option String) (tenv : TelegramEnv)
    (denv : DispatchEnv) (renv : RedisEnv) (cache : Cache) (dto : CreateMessageDto)
    (userId : String) (hasFile : Bool) (fu : Option String) (strat : SenderStrategy)
    (sr : SendResult)
    (hfu : resolveFileUrl denv hasFile = .ok fu)
    (hs : getSender token tenv dto.platform = .ok strat)
    (hsend : (fanOut strat dto.recipients dto.content fu).1 = .ok sr)
    (hsave : denv.saveOutcome = .ok ()) :
    (serviceSendMessage token tenv denv renv cache dto userId hasFile).saved =
      [{ senderId := userId, recipients := dto.recipients, platform := dto.platform,
         content := dto.content, fileUrl := fu, sent := sr.success }]
    ∧ (serviceSendMessage token tenv denv renv cache dto userId hasFile).result =
      .ok { senderId := userId, recipients := dto.recipients, platform := dto.platform,
            content := dto.content, fileUrl := fu, sent := sr.success } := by
  unfold serviceSendMessage
  simp [hfu, hs, hsend, hsave]

theorem C4_persist_result_witness :
    (serviceSendMessage none okTelegramEnv okDispatchEnv quietRedis []
        { platform := "slack", recipients := ["A"], content := "hi" } "u1" false).saved =
      [{ senderId := "u1", recipients := ["A"], platform := "slack", content := "hi",
         fileUrl := none, sent := true }]
    ∧ (serviceSendMessage none okTelegramEnv okDispatchEnv quietRedis []
        { platform := "slack", recipients := ["A"], content := "hi" } "u1" false).result =
      .ok { senderId := "u1", recipients := ["A"], platform := "slack", content := "hi",
            fileUrl := none, sent := true } :=
  C4_persist_result none okTelegramEnv okDispatchEnv quietRedis []
    { platform := "slack", recipients := ["A"], content := "hi" } "u1" false
    none slackStrategy { success := true, delivered := some true, statusCode := some 200 }
    rfl rfl rfl rfl

/-- C5: if the file upload, strategy resolution, or send step rejects (raises
an exception rather than returning a `SendResult`), the orchestrator returns
the single opaque processing-failed error, persists no record, and leaves the
keyspace untouched. -/
theorem C5_thrown_means_no_record (token : Option String) (tenv : TelegramEnv)
    (denv : DispatchEnv) (renv : RedisEnv) (cache : Cache) (dto : CreateMessageDto)
    (userId : String) (hasFile : Bool)
    (h : (∃ e, resolveFileUrl denv hasFile = .error e)
      ∨ (∃ fu e, resolveFileUrl denv hasFile = .ok fu
          ∧ getSender token tenv dto.platform = .error e)
      ∨ (∃ fu strat e, resolveFileUrl denv hasFile = .ok fu
          ∧ getSender token tenv dto.platform = .ok strat
          ∧ (fanOut strat dto.recipients dto.content fu).1 = .error e)) :
    (serviceSendMessage token tenv denv renv cache dto userId hasFile).result =
      .error opaqueDispatchError
    ∧ (serviceSendMessage token tenv denv renv cache dto userId hasFile).saved = []
    ∧ (serviceSendMessage token tenv denv renv cache dto userId hasFile).cache = cache := by
  unfold serviceSendMessage
  rcases h with ⟨e, he⟩ | ⟨fu, e, hfu, he⟩ | ⟨fu, strat, e, hfu, hs, he⟩
  · simp [he]
  · simp [hfu, he]
  · simp [hfu, hs, he]

theorem C5_thrown_means_no_record_witness :
    (serviceSendMessage none okTelegramEnv failUploadEnv quietRedis []
        { platform := "slack", recipients := ["A"], content := "hi" } "u1" true).result =
      .error opaqueDispatchError
    ∧ (serviceSendMessage none okTelegramEnv failUploadEnv quietRedis []
        { platform := "slack", recipients := ["A"], content := "hi" } "u1" true).saved = []
    ∧ (serviceSendMessage none okTelegramEnv failUploadEnv quietRedis []
        { platform := "slack", recipients := ["A"], content := "hi" } "u1" true).cache = [] :=
  C5_thrown_means_no_record none okTelegramEnv failUploadEnv quietRedis []
    { platform := "slack", recipients := ["A"], content := "hi" } "u1" true
    (Or.inl ⟨.jsError "upload failed", rfl⟩)

/-- C6 (amended): when the cache returns a non-empty entry that fails to
deserialize, the read is NOT treated as a miss: the `JSON.parse` exception
propagates to the method's catch-all, the call fails with the opaque
`Error al obtener los mensajes` error, the store is not consulted, and the
keyspace is unchanged. -/
theorem C6_corrupt_entry_hard_error (codec : Codec) (env : ReadEnv) (cache : Cache)
    (u : String) (l o : Nat) (s : String) (e : ThrownError)
    (hget : redisGet env.renv cache (cacheKey u l o) = some s)
    (hne : s ≠ "")
    (hparse : codec.parse s = .error e) :
    (getUserMessages codec env cache u l o).result = .error opaqueReadError
    ∧ (getUserMessages codec env cache u l o).cache = cache := by
  unfold getUserMessages
  simp only [hget]
  simp [hne, hparse]

theorem C6_counterexample :
    (getUserMessages emptyOnlyCodec { renv := quietRedis, storeFind := .ok [] }
        [⟨"messages:u1:10:0", "garbage", 86400⟩] "u1" 10 0).result
      = .error (.internalServerError "Error al obtener los mensajes")
    ∧ (getUserMessages emptyOnlyCodec { renv := quietRedis, storeFind := .ok [] }
        [⟨"messages:u1:10:0", "garbage", 86400⟩] "u1" 10 0).result
      ≠ .ok ([], false) := by
  refine ⟨rfl, ?_⟩
  decide

theorem C6_corrupt_entry_hard_error_witness :
    (getUserMessages emptyOnlyCodec { renv := quietRedis, storeFind := .ok [] }
        [⟨"messages:u2:5:0", "xx", 86400⟩] "u2" 5 0).result = .error opaqueReadError
    ∧ (getUserMessages emptyOnlyCodec { renv := quietRedis, storeFind := .ok [] }
        [⟨"messages:u2:5:0", "xx", 86400⟩] "u2" 5 0).cache
      = [⟨"messages:u2:5:0", "xx", 86400⟩] :=
  C6_corrupt_entry_hard_error emptyOnlyCodec { renv := quietRedis, storeFind := .ok [] }
    [⟨"messages:u2:5:0", "xx", 86400⟩] "u2" 5 0 "xx" (.jsError "Unexpected token")
    rfl (by decide) rfl

/-- C7: on a cache miss, the store result is written to the cache with the
fixed 24-hour TTL iff it is non-empty: an empty page is never cached; a
non-empty page is stored under the derived key with TTL `CACHE_TTL`; and a
cache-write failure never fails the read — the call returns the store items
with `fromCache=false` in every case. -/
theorem C7_miss_caching (codec : Codec) (env : ReadEnv) (cache : Cache)
    (u : String) (l o : Nat) (ms : List MessageRecord)
    (hget : redisGet env.renv cache (cacheKey u l o) = none)
    (hfind : env.storeFind = .ok ms) :
    (getUserMessages codec env cache u l o).result = .ok (ms, false)
    ∧ (ms = [] → (getUserMessages codec env cache u l o).cache = cache)
    ∧ (ms ≠ [] → env.renv.setFails = false →
        (getUserMessages codec env cache u l o).cache =
          cacheSet cache (cacheKey u l o) (codec.stringify ms) CACHE_TTL)
    ∧ (ms ≠ [] → env.renv.setFails = true →
        (getUserMessages codec env cache u l o).cache = cache) := by
  refine ⟨getUserMessages_of_redisGet_none codec env cache u l o ms hget hfind, ?_, ?_, ?_⟩
  · intro h
    subst h
    unfold getUserMessages
    simp only [hget]
    simp [getUserMessagesMiss, hfind]
  · intro hne hset
    have hp : ms.length > 0 := List.length_pos.mpr hne
    unfold getUserMessages
    simp only [hget]
    simp [getUserMessagesMiss, hfind, hp, redisSet, hset]
  · intro hne hset
    have hp : ms.length > 0 := List.length_pos.mpr hne
    unfold getUserMessages
    simp only [hget]
    simp [getUserMessagesMiss, hfind, hp, redisSet, hset]

theorem C7_miss_caching_witness :
    (getUserMessages emptyOnlyCodec
        { renv := quietRedis, storeFind := .ok [sampleRecord] } [] "u3" 1 2).result =
      .ok ([sampleRecord], false)
    ∧ (getUserMessages emptyOnlyCodec
        { renv := quietRedis, storeFind := .ok [sampleRecord] } [] "u3" 1 2).cache =
      cacheSet [] (cacheKey "u3" 1 2) (emptyOnlyCodec.stringify [sampleRecord]) CACHE_TTL := by
  obtain ⟨h1, _, h3, _⟩ := C7_miss_caching emptyOnlyCodec
    { renv := quietRedis, storeFind := .ok [sampleRecord] } [] "u3" 1 2 [sampleRecord] rfl rfl
  exact ⟨h1, h3 (by decide) rfl⟩

end BackendMoob
